import Mathlib

/-!
# NeuralTrade ML-engine: formal model of the signal pipeline

Shallow embedding of `services/ml-engine/app` (schemas/signal.py,
services/risk_assessor.py, models/signal_predictor.py).  Python floats are
modelled as rationals (`ℚ`), millisecond timestamps as integers.  Numpy
column operations are rendered column-wise over `List ℚ`; Python's
`xs[-n:]` slice is `lastN n`.  Human-readable factor descriptions carry the
fixed text only (the interpolated numeric formatting of the f-strings is
presentation, not logic).  Operations that raise `IndexError` in Python on
an empty candle list are either `Option`-valued or guarded by a nonemptiness
hypothesis in the theorems.
-/

set_option linter.unusedVariables false

/-- Trading signal direction (`schemas/signal.py`, `SignalDirection`). -/
inductive SignalDirection where
  | long
  | short
  | neutral
  deriving DecidableEq

/-- Risk classification (`schemas/signal.py`, `RiskLevel`). -/
inductive RiskLevel where
  | low
  | medium
  | high
  | critical
  deriving DecidableEq

/-- OHLCV candle data (`schemas/signal.py`, `OHLCVData`): the raw field
content, before pydantic validation (see `validateOHLCV`). -/
structure OHLCVData where
  timestamp : Int
  «open» : ℚ
  high : ℚ
  low : ℚ
  close : ℚ
  volume : ℚ
  deriving DecidableEq

/-- The part of `SignalRequest` (`schemas/signal.py`) the pipeline reads:
the candle window and the request timestamp.  The exchange / symbol /
timeframe metadata is routing only and never enters the computations. -/
structure SignalRequest where
  candles : List OHLCVData
  request_timestamp : Int
  deriving DecidableEq

/-- Individual FMEA risk factor (`schemas/signal.py`, `RiskFactor`). -/
structure RiskFactor where
  name : String
  category : String
  score : ℚ
  description : String
  deriving DecidableEq

/-- FMEA risk assessment result (`schemas/signal.py`, `RiskAssessment`). -/
structure RiskAssessment where
  risk_level : RiskLevel
  risk_score : ℚ
  severity_score : ℚ
  occurrence_score : ℚ
  detection_score : ℚ
  factors : List RiskFactor
  mitigations : List String
  is_stale_data : Bool
  is_drift_detected : Bool
  is_shadow_model_agreed : Bool

/-- The settings the pipeline reads (`config.py`, `Settings`). -/
structure Settings where
  ml_confidence_threshold : ℚ
  risk_max_data_age_seconds : Int
  risk_drift_threshold : ℚ

/-- Default settings values (`config.py`): threshold 0.85, max age 5 s,
drift threshold 0.15. -/
def defaultSettings : Settings :=
  { ml_confidence_threshold := 85/100
    risk_max_data_age_seconds := 5
    risk_drift_threshold := 15/100 }

/-- Python slice `xs[-n:]`: the last `n` elements (all of them if fewer). -/
def lastN (n : Nat) (xs : List α) : List α :=
  xs.drop (xs.length - n)

/-- Python `max(xs)` on a list of rationals, with the `0` default the call
sites supply for the empty list (`max(price_changes) if price_changes else 0`). -/
def listMax : List ℚ → ℚ
  | [] => 0
  | x :: xs => xs.foldl max x

/-- Numpy `col.min()` restricted to the nonempty lists it is applied to
(defaulting to `0` on `[]`, a case the pipeline never produces). -/
def listMin : List ℚ → ℚ
  | [] => 0
  | x :: xs => xs.foldl min x

/-! ## Risk assessor (`services/risk_assessor.py`, class `RiskAssessor`)

`assess` is a pure function of: the settings, the current wall-clock time
in ms (`time.time() * 1000`), the request, the predicted direction,
confidence, shadow agreement, and the recorded outcome history
(`self.historical_accuracy`).  Each of the eight risk checks is a separate
definition used by `assess`. -/

/-- `STALE_DATA_MAX_AGE_MS = settings.risk_max_data_age_seconds * 1000`. -/
def STALE_DATA_MAX_AGE_MS (s : Settings) : Int :=
  s.risk_max_data_age_seconds * 1000

/-- `data_age_ms = int(time.time() * 1000) - request.request_timestamp`. -/
def dataAgeMs (nowMs : Int) (req : SignalRequest) : Int :=
  nowMs - req.request_timestamp

/-- Check 1: `data_age_ms > STALE_DATA_MAX_AGE_MS`. -/
def staleCond (s : Settings) (nowMs : Int) (req : SignalRequest) : Bool :=
  decide (STALE_DATA_MAX_AGE_MS s < dataAgeMs nowMs req)

/-- `[abs(prices[i] - prices[i-1]) / prices[i-1] for i in range(1, len(prices))]`. -/
def priceChanges (prices : List ℚ) : List ℚ :=
  (prices.zip prices.tail).map fun pq => |pq.2 - pq.1| / pq.1

/-- `max(price_changes) if price_changes else 0` over the close prices. -/
def maxChange (req : SignalRequest) : ℚ :=
  listMax (priceChanges (req.candles.map OHLCVData.close))

/-- Check 2: `max_change > 0.1` (a >10% single-candle move). -/
def anomalyCond (req : SignalRequest) : Bool :=
  decide ((1 : ℚ)/10 < maxChange req)

/-- Check 3: `confidence < MIN_CONFIDENCE`. -/
def lowConfCond (s : Settings) (confidence : ℚ) : Bool :=
  decide (confidence < s.ml_confidence_threshold)

/-- Check 5 (`RiskAssessor._detect_drift`): `False` with fewer than 10
recorded outcomes, otherwise the mean of the last 10 is below
`1 - DRIFT_THRESHOLD`. -/
def detectDrift (s : Settings) (hist : List ℚ) : Bool :=
  if hist.length < 10 then false
  else decide ((lastN 10 hist).sum / 10 < 1 - s.risk_drift_threshold)

/-- `avg_range = sum(h - l for h, l in zip(highs, lows)) / len(highs)` over
the last 14 candles. -/
def avgRange (req : SignalRequest) : ℚ :=
  let highs := lastN 14 (req.candles.map OHLCVData.high)
  let lows := lastN 14 (req.candles.map OHLCVData.low)
  ((highs.zip lows).map fun hl => hl.1 - hl.2).sum / highs.length

/-- `avg_price = sum(c.close for c in request.candles[-14:]) / 14`. -/
def avgPrice (req : SignalRequest) : ℚ :=
  (lastN 14 (req.candles.map OHLCVData.close)).sum / 14

/-- `volatility_pct = (avg_range / avg_price) * 100`. -/
def volatilityPct (req : SignalRequest) : ℚ :=
  avgRange req / avgPrice req * 100

/-- Check 6: `volatility_pct > 5`. -/
def highVolCond (req : SignalRequest) : Bool :=
  decide ((5 : ℚ) < volatilityPct req)

/-- `avg_volume = sum(c.volume for c in request.candles[-14:]) / 14`. -/
def avgVolume (req : SignalRequest) : ℚ :=
  (lastN 14 (req.candles.map OHLCVData.volume)).sum / 14

/-- `last_volume = request.candles[-1].volume`; in Python this raises on an
empty window, here the junk default `0` is returned and every theorem about
`assess` assumes a nonempty window. -/
def lastVolume (req : SignalRequest) : ℚ :=
  ((req.candles.getLast?).map OHLCVData.volume).getD 0

/-- Check 7: `last_volume < avg_volume * 0.5`. -/
def lowVolumeCond (req : SignalRequest) : Bool :=
  decide (lastVolume req < avgVolume req * (1/2))

/-- Check 8: `direction == SignalDirection.NEUTRAL`. -/
def neutralCond (direction : SignalDirection) : Bool :=
  decide (direction = SignalDirection.neutral)

/-- A conditional `factors.append(...)`: the sublist contributed by one check. -/
def optFactor (b : Bool) (f : RiskFactor) : List RiskFactor :=
  if b then [f] else []

/-- A conditional `mitigations.append(...)`. -/
def optMit (b : Bool) (m : String) : List String :=
  if b then [m] else []

def staleFactor : RiskFactor :=
  { name := "Stale Data", category := "data", score := 8,
    description := "Data age exceeds threshold" }

def anomalyFactor : RiskFactor :=
  { name := "Anomalous Price Movement", category := "data", score := 7,
    description := "Detected large price move in single candle" }

def lowConfFactor : RiskFactor :=
  { name := "Low Model Confidence", category := "model", score := 6,
    description := "Confidence below threshold" }

def disagreeFactor : RiskFactor :=
  { name := "Model Disagreement", category := "model", score := 7,
    description := "Primary and shadow models disagree on direction" }

def driftFactor : RiskFactor :=
  { name := "Model Drift Detected", category := "model", score := 9,
    description := "Recent accuracy below threshold" }

def highVolFactor : RiskFactor :=
  { name := "High Volatility", category := "market", score := 5,
    description := "14-period volatility above threshold" }

def lowVolumeFactor : RiskFactor :=
  { name := "Low Liquidity", category := "market", score := 4,
    description := "Current volume below half of average" }

def neutralFactor : RiskFactor :=
  { name := "Neutral Signal", category := "execution", score := 3,
    description := "Model suggests no clear trading direction" }

/-- The factor list built by `RiskAssessor.assess`, in the append order of
the eight checks. -/
def assessFactors (s : Settings) (nowMs : Int) (req : SignalRequest)
    (direction : SignalDirection) (confidence : ℚ) (shadow_agreed : Bool)
    (hist : List ℚ) : List RiskFactor :=
  optFactor (staleCond s nowMs req) staleFactor ++
  optFactor (anomalyCond req) anomalyFactor ++
  optFactor (lowConfCond s confidence) lowConfFactor ++
  optFactor (!shadow_agreed) disagreeFactor ++
  optFactor (detectDrift s hist) driftFactor ++
  optFactor (highVolCond req) highVolFactor ++
  optFactor (lowVolumeCond req) lowVolumeFactor ++
  optFactor (neutralCond direction) neutralFactor

/-- The mitigation list built by `RiskAssessor.assess`. -/
def assessMitigations (s : Settings) (nowMs : Int) (req : SignalRequest)
    (direction : SignalDirection) (confidence : ℚ) (shadow_agreed : Bool)
    (hist : List ℚ) : List String :=
  optMit (staleCond s nowMs req) "Reject signal and request fresh data" ++
  optMit (anomalyCond req) "Verify data integrity before execution" ++
  optMit (lowConfCond s confidence) "Reduce position size or skip trade" ++
  optMit (!shadow_agreed) "Wait for model consensus before entry" ++
  optMit (detectDrift s hist) "Trigger model retraining pipeline" ++
  optMit (highVolCond req) "Widen stop-loss or reduce leverage" ++
  optMit (lowVolumeCond req) "Use limit orders to avoid slippage" ++
  optMit (neutralCond direction) "Wait for stronger signal confirmation"

/-- RPN band classification (`RPN_LOW = 100`, `RPN_MEDIUM = 200`,
`RPN_HIGH = 400`). -/
def riskLevelOf (rpn : ℚ) : RiskLevel :=
  if rpn ≤ 100 then RiskLevel.low
  else if rpn ≤ 200 then RiskLevel.medium
  else if rpn ≤ 400 then RiskLevel.high
  else RiskLevel.critical

/-- `RiskAssessor.assess`: the full FMEA assessment as a pure function. -/
def assess (s : Settings) (nowMs : Int) (req : SignalRequest)
    (direction : SignalDirection) (confidence : ℚ) (shadow_agreed : Bool)
    (hist : List ℚ) : RiskAssessment :=
  let factors := assessFactors s nowMs req direction confidence shadow_agreed hist
  let severity : ℚ := if factors.isEmpty then 1 else (factors.map RiskFactor.score).sum / factors.length
  let occurrence : ℚ := (min 10 (factors.length * 2 + 1) : ℕ)
  let detection : ℚ := if shadow_agreed then 4 else 6
  let rpn := severity * occurrence * detection
  { risk_level := riskLevelOf rpn
    risk_score := rpn
    severity_score := severity
    occurrence_score := occurrence
    detection_score := detection
    factors := factors
    mitigations := assessMitigations s nowMs req direction confidence shadow_agreed hist
    is_stale_data := staleCond s nowMs req
    is_drift_detected := detectDrift s hist
    is_shadow_model_agreed := shadow_agreed }

/-- The mutable state of a `RiskAssessor` instance.  The constructor also
initialises `recent_predictions`, but no line of the source ever reads or
writes it, so only `historical_accuracy` is modelled. -/
structure RiskAssessorState where
  historical_accuracy : List ℚ
  deriving DecidableEq

/-- `RiskAssessor.assess` as a state transformer: the method body reads
`self.historical_accuracy` (inside `_detect_drift`) and contains no
assignment to any `self` field, so the state passes through unchanged. -/
def assessStep (s : Settings) (st : RiskAssessorState) (nowMs : Int)
    (req : SignalRequest) (direction : SignalDirection) (confidence : ℚ)
    (shadow_agreed : Bool) : RiskAssessment × RiskAssessorState :=
  (assess s nowMs req direction confidence shadow_agreed st.historical_accuracy, st)

/-- `RiskAssessor.record_outcome`: append `1.0`/`0.0`, then keep only the
last 100 entries.  The unused `prediction_id` argument is dropped. -/
def recordOutcome (hist : List ℚ) (was_correct : Bool) : List ℚ :=
  let h := hist ++ [if was_correct then (1 : ℚ) else 0]
  if 100 < h.length then lastN 100 h else h

/-- `record_outcome` as a state transformer on the assessor state. -/
def recordOutcomeStep (st : RiskAssessorState) (was_correct : Bool) :
    RiskAssessorState :=
  { historical_accuracy := recordOutcome st.historical_accuracy was_correct }

/-! ## Signal predictor (`models/signal_predictor.py`, class `SignalPredictor`)

The torch forward pass is external to the claims: a loaded classifier is an
opaque function from the feature matrix to a probability vector, exactly as
the code treats `self.model(x)`.  `None` models are `Option.none`. -/

/-- Min-max scaling of one feature column (`SignalPredictor._preprocess`,
loop body): scale to `[0,1]` using the column min/max, or map everything to
`0.5` when the column is constant. -/
def preprocessCol (col : List ℚ) : List ℚ :=
  let min_val := listMin col
  let max_val := listMax col
  if min_val < max_val then col.map fun v => (v - min_val) / (max_val - min_val)
  else col.map fun _ => 1/2

/-- `SignalPredictor._preprocess`: the five feature columns (open, high,
low, close, volume), each independently min-max scaled.  The numpy matrix
is represented column-major. -/
def preprocess (candles : List OHLCVData) : List (List ℚ) :=
  [candles.map OHLCVData.«open», candles.map OHLCVData.high,
   candles.map OHLCVData.low, candles.map OHLCVData.close,
   candles.map OHLCVData.volume].map preprocessCol

/-- `int(np.argmax(probs))`: the first (lowest) index attaining the maximum. -/
def argmaxIdx : List ℚ → Nat
  | [] => 0
  | x :: xs =>
    if xs.isEmpty then 0
    else if listMax xs ≤ x then 0 else argmaxIdx xs + 1

/-- `direction_map = {0: LONG, 1: SHORT, 2: NEUTRAL}`. -/
def directionMap : Nat → SignalDirection
  | 0 => SignalDirection.long
  | 1 => SignalDirection.short
  | _ => SignalDirection.neutral

/-- Lines 143-148 of `_predict_direction`: argmax over the probability
vector, mapped to a direction, with the winning probability as confidence. -/
def classifyProbs (probs : List ℚ) : SignalDirection × ℚ :=
  (directionMap (argmaxIdx probs), probs.getD (argmaxIdx probs) 0)

/-- An opaque loaded classifier: feature matrix to probability vector. -/
abbrev ClassifierFn := List (List ℚ) → List ℚ

/-- `SignalPredictor._predict_direction`: the mock `(NEUTRAL, 0.5,
[0.33, 0.34, 0.33])` when no model is loaded, otherwise classify the
model's probability vector. -/
def predictDirection (model : Option ClassifierFn) (features : List (List ℚ)) :
    SignalDirection × ℚ × List ℚ :=
  match model with
  | none => (SignalDirection.neutral, 1/2, [33/100, 34/100, 33/100])
  | some m =>
    let probs := m features
    ((classifyProbs probs).1, (classifyProbs probs).2, probs)

/-- `SignalPredictor._predict_shadow`: `(NEUTRAL, 0.5)` when no shadow
model is loaded. -/
def predictShadow (shadow : Option ClassifierFn) (features : List (List ℚ)) :
    SignalDirection × ℚ :=
  match shadow with
  | none => (SignalDirection.neutral, 1/2)
  | some m => classifyProbs (m features)

/-- One true range term of `_calculate_levels`:
`max(high - low, max(|high - prev_close|, |low - prev_close|))`. -/
def trueRange (prevClose high low : ℚ) : ℚ :=
  max (high - low) (max |high - prevClose| |low - prevClose|)

/-- The ATR of `_calculate_levels`: true ranges over the last 14 candles,
pairing candle `i` with close `i-1` (the `np.roll` followed by `[1:]`),
then the arithmetic mean of the 13 resulting values. -/
def atr (candles : List OHLCVData) : ℚ :=
  let highs := lastN 14 (candles.map OHLCVData.high)
  let lows := lastN 14 (candles.map OHLCVData.low)
  let closes := lastN 14 (candles.map OHLCVData.close)
  let tr := (closes.zip (highs.tail.zip lows.tail)).map
    fun x => trueRange x.1 x.2.1 x.2.2
  tr.sum / tr.length

/-- `SignalPredictor._calculate_levels`: entry, stop-loss, take-profits and
risk/reward from the direction and the candle window.  `none` models the
`IndexError` Python raises on `candles[-1]` for an empty window. -/
def calcLevels (direction : SignalDirection) (candles : List OHLCVData) :
    Option (ℚ × ℚ × List ℚ × ℚ) :=
  match candles.getLast? with
  | none => none
  | some lastC =>
    let current_price := lastC.close
    let a := atr candles
    let levels : ℚ × ℚ × List ℚ :=
      match direction with
      | SignalDirection.long =>
        (current_price, current_price - a * (3/2),
         [current_price + a, current_price + a * 2, current_price + a * 3])
      | SignalDirection.short =>
        (current_price, current_price + a * (3/2),
         [current_price - a, current_price - a * 2, current_price - a * 3])
      | SignalDirection.neutral =>
        (current_price, current_price * (98/100), [current_price * (102/100)])
    let risk := |levels.1 - levels.2.1|
    let reward := |levels.2.2.headD 0 - levels.1|
    some (levels.1, levels.2.1, levels.2.2, if 0 < risk then reward / risk else 1)

/-- `SignalPredictor.predict`: preprocess, primary prediction, shadow
verification, agreement flag, level calculation. -/
def predict (model shadow : Option ClassifierFn) (req : SignalRequest) :
    Option (SignalDirection × ℚ × ℚ × ℚ × List ℚ × ℚ × Bool) :=
  let features := preprocess req.candles
  let pd := predictDirection model features
  let sd := predictShadow shadow features
  let shadow_agreed := decide (pd.1 = sd.1)
  (calcLevels pd.1 req.candles).map fun lv =>
    (pd.1, pd.2.1, lv.1, lv.2.1, lv.2.2.1, lv.2.2.2, shadow_agreed)

/-! ## Pydantic validation of `OHLCVData` (`schemas/signal.py`)

Pydantic validates fields in declaration order (timestamp, open, high, low,
close, volume); a field validator sees only the *previously* validated
fields in `info.data`.  The `high_must_be_highest` validator therefore runs
with `info.data` holding only `timestamp` and `open`. -/

/-- The `high_must_be_highest` validator body: raise when `"low"` is among
the already-validated fields and `v < info.data["low"]`. -/
def highFieldOk (dataFields : List String) (high low : ℚ) : Bool :=
  if "low" ∈ dataFields then decide (¬ high < low) else true

/-- Whole-model validation of `OHLCVData`: the `Field` constraints
(`open, high, low, close > 0`, `volume ≥ 0`) plus the `high` field
validator, run in pydantic's declaration order. -/
def validateOHLCV (timestamp : Int) («open» high low close volume : ℚ) : Bool :=
  decide (0 < «open») &&
  (decide (0 < high) && highFieldOk ["timestamp", "open"] high low) &&
  decide (0 < low) &&
  decide (0 < close) &&
  decide (0 ≤ volume)

/-! ## Supporting lemmas -/

theorem drop_append_of_le {α : Type _} :
    ∀ {l₁ l₂ : List α} {n : Nat}, n ≤ l₁.length →
      (l₁ ++ l₂).drop n = l₁.drop n ++ l₂
  | _, _, 0, _ => rfl
  | [], _, n + 1, h => by simp at h
  | a :: l₁, l₂, n + 1, h => by
    simpa using @drop_append_of_le _ l₁ l₂ n (Nat.le_of_succ_le_succ h)

theorem length_lastN {α : Type _} (n : Nat) (xs : List α) :
    (lastN n xs).length = min n xs.length := by
  simp [lastN]
  omega

theorem lastN_of_le {α : Type _} {n : Nat} {xs : List α} (h : xs.length ≤ n) :
    lastN n xs = xs := by
  unfold lastN
  have h0 : xs.length - n = 0 := by omega
  rw [h0, List.drop_zero]

theorem lastN_append_singleton {α : Type _} {n : Nat} (hn : 0 < n)
    (xs : List α) (x : α) :
    lastN n (xs ++ [x]) = lastN (n - 1) xs ++ [x] := by
  unfold lastN
  rw [List.length_append, List.length_singleton,
    drop_append_of_le (by omega)]
  have h : xs.length + 1 - n = xs.length - (n - 1) := by omega
  rw [h]

theorem lastN_lastN {α : Type _} {m n : Nat} (h : m ≤ n) (xs : List α) :
    lastN m (lastN n xs) = lastN m xs := by
  unfold lastN
  rw [List.drop_drop]
  congr 1
  rw [List.length_drop]
  omega

theorem listMax_singleton (x : ℚ) : listMax [x] = x := rfl

theorem foldl_max_comm_cons : ∀ (ys : List ℚ) (a b : ℚ),
    List.foldl max (max a b) ys = max a (List.foldl max b ys)
  | [], a, b => rfl
  | c :: cs, a, b => by
    rw [List.foldl_cons, List.foldl_cons, max_assoc, foldl_max_comm_cons cs a (max b c)]

theorem listMax_cons_cons (x y : ℚ) (ys : List ℚ) :
    listMax (x :: y :: ys) = max x (listMax (y :: ys)) := by
  show List.foldl max x (y :: ys) = max x (List.foldl max y ys)
  rw [List.foldl_cons]
  exact foldl_max_comm_cons ys x y

theorem listMin_singleton (x : ℚ) : listMin [x] = x := rfl

theorem foldl_min_comm_cons : ∀ (ys : List ℚ) (a b : ℚ),
    List.foldl min (min a b) ys = min a (List.foldl min b ys)
  | [], a, b => rfl
  | c :: cs, a, b => by
    rw [List.foldl_cons, List.foldl_cons, min_assoc, foldl_min_comm_cons cs a (min b c)]

theorem listMin_cons_cons (x y : ℚ) (ys : List ℚ) :
    listMin (x :: y :: ys) = min x (listMin (y :: ys)) := by
  show List.foldl min x (y :: ys) = min x (List.foldl min y ys)
  rw [List.foldl_cons]
  exact foldl_min_comm_cons ys x y

theorem argmaxIdx_singleton (x : ℚ) : argmaxIdx [x] = 0 := rfl

theorem argmaxIdx_cons_cons (x y : ℚ) (ys : List ℚ) :
    argmaxIdx (x :: y :: ys)
      = if listMax (y :: ys) ≤ x then 0 else argmaxIdx (y :: ys) + 1 := rfl

theorem le_listMax_of_mem : ∀ {xs : List ℚ} {x : ℚ}, x ∈ xs → x ≤ listMax xs
  | [a], x, h => by
    rw [List.mem_singleton] at h
    rw [h, listMax_singleton]
  | a :: b :: ys, x, h => by
    rw [listMax_cons_cons]
    rcases List.mem_cons.mp h with rfl | h2
    · exact le_max_left _ _
    · exact le_trans (le_listMax_of_mem h2) (le_max_right _ _)

theorem listMin_le_of_mem : ∀ {xs : List ℚ} {x : ℚ}, x ∈ xs → listMin xs ≤ x
  | [a], x, h => by
    rw [List.mem_singleton] at h
    rw [h, listMin_singleton]
  | a :: b :: ys, x, h => by
    rw [listMin_cons_cons]
    rcases List.mem_cons.mp h with rfl | h2
    · exact min_le_left _ _
    · exact le_trans (min_le_right _ _) (listMin_le_of_mem h2)

theorem listMin_le_listMax {xs : List ℚ} (h : xs ≠ []) :
    listMin xs ≤ listMax xs := by
  match xs, h with
  | a :: tl, _ =>
    exact le_trans (listMin_le_of_mem (List.mem_cons_self _ _))
      (le_listMax_of_mem (List.mem_cons_self _ _))

theorem argmaxIdx_lt_length : ∀ (ps : List ℚ), ps ≠ [] → argmaxIdx ps < ps.length
  | [x], _ => by
    rw [argmaxIdx_singleton]
    simp
  | x :: y :: ys, _ => by
    rw [argmaxIdx_cons_cons]
    split
    · simp
    · have := argmaxIdx_lt_length (y :: ys) (by simp)
      simpa [Nat.succ_lt_succ_iff] using this

theorem getD_argmaxIdx : ∀ (ps : List ℚ), ps ≠ [] →
    ps.getD (argmaxIdx ps) 0 = listMax ps
  | [x], _ => by
    rw [argmaxIdx_singleton, listMax_singleton]
    rfl
  | x :: y :: ys, _ => by
    rw [argmaxIdx_cons_cons, listMax_cons_cons]
    by_cases hc : listMax (y :: ys) ≤ x
    · rw [if_pos hc, max_eq_left hc]
      rfl
    · rw [if_neg hc]
      have ih := getD_argmaxIdx (y :: ys) (by simp)
      have hx : x ≤ listMax (y :: ys) := le_of_lt (not_le.mp hc)
      rw [List.getD_cons_succ, ih, max_eq_right hx]

theorem getD_le_of_lt_length {ps : List ℚ} {j : Nat} (hj : j < ps.length) :
    ps.getD j 0 ≤ ps.getD (argmaxIdx ps) 0 := by
  have hne : ps ≠ [] := by
    intro h
    rw [h] at hj
    simp at hj
  rw [getD_argmaxIdx ps hne]
  have hmem : ps.getD j 0 ∈ ps := by
    rw [List.getD_eq_getElem?_getD, List.getElem?_eq_getElem hj]
    exact List.getElem_mem hj
  exact le_listMax_of_mem hmem

theorem getD_lt_of_lt_argmaxIdx : ∀ (ps : List ℚ) (j : Nat),
    j < argmaxIdx ps → ps.getD j 0 < ps.getD (argmaxIdx ps) 0
  | [], j, hj => by
    exact absurd hj (Nat.not_lt_zero j)
  | [x], j, hj => by
    rw [argmaxIdx_singleton] at hj
    exact absurd hj (Nat.not_lt_zero j)
  | x :: y :: ys, j, hj => by
    rw [argmaxIdx_cons_cons] at hj ⊢
    by_cases hc : listMax (y :: ys) ≤ x
    · rw [if_pos hc] at hj
      exact absurd hj (Nat.not_lt_zero j)
    · rw [if_neg hc] at hj ⊢
      have hx : x < listMax (y :: ys) := not_le.mp hc
      match j with
      | 0 =>
        have ih := getD_argmaxIdx (y :: ys) (by simp)
        rw [List.getD_cons_zero, List.getD_cons_succ, ih]
        exact hx
      | j + 1 =>
        have ih := getD_lt_of_lt_argmaxIdx (y :: ys) j (Nat.lt_of_succ_lt_succ hj)
        rw [List.getD_cons_succ, List.getD_cons_succ]
        exact ih

theorem recordOutcome_lastN (xs : List ℚ) (b : Bool) :
    recordOutcome (lastN 100 xs) b = lastN 100 (xs ++ [if b then (1 : ℚ) else 0]) := by
  simp only [recordOutcome]
  by_cases h : xs.length < 100
  · rw [lastN_of_le (le_of_lt h)]
    rw [if_neg (by simp; omega)]
    exact (lastN_of_le (by simp; omega)).symm
  · have hlen : (lastN 100 xs).length = 100 := by rw [length_lastN]; omega
    rw [if_pos (by simp [hlen])]
    rw [lastN_append_singleton (by norm_num) (lastN 100 xs) _,
      lastN_append_singleton (by norm_num) xs _]
    rw [lastN_lastN (by norm_num) xs]

/-! ## Concrete fixtures used by witnesses and counterexamples -/

/-- A benign flat candle: all prices 100, volume 5. -/
def flatCandle : OHLCVData :=
  { timestamp := 0, «open» := 100, high := 100, low := 100, close := 100, volume := 5 }

/-- A schema-valid window of 50 flat candles. -/
def flatCandles50 : List OHLCVData := List.replicate 50 flatCandle

/-- A fresh request over the flat window. -/
def flatRequest : SignalRequest :=
  { candles := flatCandles50, request_timestamp := 0 }

/-- A candle with true range 2 around a close of 100. -/
def rangeCandle : OHLCVData :=
  { timestamp := 0, «open» := 100, high := 101, low := 99, close := 100, volume := 5 }

/-- 14 candles whose ATR is exactly 2 and whose last close is 100. -/
def rangeCandles14 : List OHLCVData := List.replicate 14 rangeCandle

/-- A flat 14-candle window (ATR 0, last close 100). -/
def flatCandles14 : List OHLCVData := List.replicate 14 flatCandle

/-! ## Claims -/

/-- **C4** (confirmed).  `assess` flags drift exactly when the outcome
history holds at least 10 entries and the mean of the most recent 10 is
strictly below `1 - drift_threshold`; with fewer than 10 entries drift is
never flagged, whatever the entries are. -/
theorem c4_drift_iff (s : Settings) (nowMs : Int) (req : SignalRequest)
    (direction : SignalDirection) (confidence : ℚ) (shadow_agreed : Bool)
    (hist : List ℚ) :
    (assess s nowMs req direction confidence shadow_agreed hist).is_drift_detected = true ↔
      10 ≤ hist.length ∧ (lastN 10 hist).sum / 10 < 1 - s.risk_drift_threshold := by
  have hfield : (assess s nowMs req direction confidence shadow_agreed hist).is_drift_detected
      = detectDrift s hist := rfl
  rw [hfield, detectDrift]
  by_cases hlen : hist.length < 10
  · rw [if_pos hlen]
    simp
    omega
  · rw [if_neg hlen]
    simp [decide_eq_true_iff, not_lt.mp hlen]

/-- **C10** (confirmed).  `assess` never mutates the assessor state: the
method body contains no assignment to `self.historical_accuracy`, so as a
state transformer it returns its input state unchanged; `record_outcome`
(`recordOutcomeStep`) is the only operation writing that state. -/
theorem c10_assess_frame (s : Settings) (st : RiskAssessorState) (nowMs : Int)
    (req : SignalRequest) (direction : SignalDirection) (confidence : ℚ)
    (shadow_agreed : Bool) :
    (assessStep s st nowMs req direction confidence shadow_agreed).2 = st := rfl

/-- **C6** (code bug).  A candle with `open = 5`, `high = 1`, `low = 10`,
`close = 20` passes the pydantic validation although its high is below its
low and its open and close lie outside `[low, high]`: the
`high_must_be_highest` validator runs while `info.data` holds only the
already-validated `timestamp` and `open` fields, so its `"low" in
info.data` guard is always false and the `high >= low` check never fires;
no validator relates `open`/`close` to `[low, high]` at all. -/
theorem c6_dead_validator :
    validateOHLCV 0 5 1 10 20 0 = true ∧
      (1 : ℚ) < 10 ∧
      ¬ ((10 : ℚ) ≤ 5 ∧ (5 : ℚ) ≤ 1) ∧
      ¬ ((10 : ℚ) ≤ 20 ∧ (20 : ℚ) ≤ 1) := by
  decide

/-- **C8** (confirmed).  Starting from the empty history, any sequence of
`record_outcome` calls leaves exactly the most recent
`min 100 (number of appends)` encoded outcomes, in append order: the
history never exceeds 100 entries and the oldest entry is evicted first. -/
theorem c8_history_bound (outcomes : List Bool) :
    List.foldl recordOutcome [] outcomes
        = lastN 100 (outcomes.map fun b => if b then (1 : ℚ) else 0) ∧
      (List.foldl recordOutcome [] outcomes).length = min 100 outcomes.length := by
  have main : List.foldl recordOutcome [] outcomes
      = lastN 100 (outcomes.map fun b => if b then (1 : ℚ) else 0) := by
    induction outcomes using List.reverseRecOn with
    | nil => rfl
    | append_singleton bs b ih =>
      rw [List.foldl_append, List.foldl_cons, List.foldl_nil, ih,
        recordOutcome_lastN, List.map_append, List.map_singleton]
  refine ⟨main, ?_⟩
  rw [main, length_lastN, List.length_map]

theorem optFactor_eq_nil {b : Bool} {f : RiskFactor} :
    optFactor b f = [] ↔ b = false := by
  cases b <;> simp [optFactor]

theorem mem_optFactor {x f : RiskFactor} {b : Bool} :
    x ∈ optFactor b f ↔ b = true ∧ x = f := by
  cases b <;> simp [optFactor]

/-- **C1** (corrected).  The factor list returned by `assess` is empty
exactly when none of the eight risk checks fires: no sentinel entry is
appended, so with zero fired factors the caller receives an empty list
(the severity sub-score then falls back to `1.0`). -/
theorem c1_factors_empty_iff (s : Settings) (nowMs : Int) (req : SignalRequest)
    (direction : SignalDirection) (confidence : ℚ) (shadow_agreed : Bool)
    (hist : List ℚ) (hne : req.candles ≠ []) :
    (assess s nowMs req direction confidence shadow_agreed hist).factors = [] ↔
      staleCond s nowMs req = false ∧ anomalyCond req = false ∧
      lowConfCond s confidence = false ∧ shadow_agreed = true ∧
      detectDrift s hist = false ∧ highVolCond req = false ∧
      lowVolumeCond req = false ∧ neutralCond direction = false := by
  have hfield : (assess s nowMs req direction confidence shadow_agreed hist).factors
      = assessFactors s nowMs req direction confidence shadow_agreed hist := rfl
  rw [hfield, assessFactors]
  simp only [List.append_eq_nil, optFactor_eq_nil, Bool.not_eq_false', and_assoc]

theorem zip_replicate_min {α β : Type _} (a : α) (b : β) :
    ∀ (m n : Nat), List.zip (List.replicate m a) (List.replicate n b)
      = List.replicate (min m n) (a, b)
  | 0, n => by simp
  | m + 1, 0 => by simp
  | m + 1, n + 1 => by
    rw [List.replicate_succ, List.replicate_succ, List.zip_cons_cons,
      zip_replicate_min a b m n, Nat.succ_min_succ, List.replicate_succ]

theorem listMax_replicate_zero : ∀ (n : Nat), listMax (List.replicate n (0 : ℚ)) = 0
  | 0 => rfl
  | 1 => rfl
  | n + 2 => by
    rw [List.replicate_succ, List.replicate_succ, listMax_cons_cons, ← List.replicate_succ,
      listMax_replicate_zero (n + 1), max_self]

/-- On the flat request no price change occurs. -/
theorem maxChange_flatRequest : maxChange flatRequest = 0 := by
  have hmap : flatRequest.candles.map OHLCVData.close = List.replicate 50 (100 : ℚ) := by
    simp [flatRequest, flatCandles50, List.map_replicate, flatCandle]
  rw [maxChange, hmap, priceChanges, List.tail_replicate]
  rw [zip_replicate_min]
  norm_num
  exact listMax_replicate_zero 49

/-- On the flat request the 14-candle average range is zero. -/
theorem avgRange_flatRequest : avgRange flatRequest = 0 := by
  have hh : flatRequest.candles.map OHLCVData.high = List.replicate 50 (100 : ℚ) := by
    simp [flatRequest, flatCandles50, List.map_replicate, flatCandle]
  have hl : flatRequest.candles.map OHLCVData.low = List.replicate 50 (100 : ℚ) := by
    simp [flatRequest, flatCandles50, List.map_replicate, flatCandle]
  rw [avgRange, hh, hl]
  simp [lastN, List.drop_replicate, zip_replicate_min]

/-- On the flat request the last volume is 5 and the average volume is 5. -/
theorem volumes_flatRequest : lastVolume flatRequest = 5 ∧ avgVolume flatRequest = 5 := by
  constructor
  · rw [lastVolume, flatRequest]
    simp [flatCandles50, List.getLast?_replicate, flatCandle]
  · have hv : flatRequest.candles.map OHLCVData.volume = List.replicate 50 (5 : ℚ) := by
      simp [flatRequest, flatCandles50, List.map_replicate, flatCandle]
    rw [avgVolume, hv]
    rw [lastN, List.length_replicate, List.drop_replicate, List.sum_replicate]
    norm_num

/-- **C1** counterexample to the claim as stated: a call in which none of
the eight checks fires returns the empty factor list, not a singleton
sentinel "no significant risk" entry. -/
theorem c1_sentinel_counterexample :
    (assess defaultSettings 0 flatRequest SignalDirection.long (9/10) true []).factors
      = [] := by
  have hfield : (assess defaultSettings 0 flatRequest SignalDirection.long (9/10) true []).factors
      = assessFactors defaultSettings 0 flatRequest SignalDirection.long (9/10) true [] := rfl
  rw [hfield, assessFactors]
  have h1 : staleCond defaultSettings 0 flatRequest = false := by decide
  have h2 : anomalyCond flatRequest = false := by
    rw [anomalyCond, maxChange_flatRequest]
    norm_num
  have h3 : lowConfCond defaultSettings (9/10) = false := by
    rw [lowConfCond, defaultSettings]
    norm_num
  have h4 : detectDrift defaultSettings [] = false := by decide
  have h5 : highVolCond flatRequest = false := by
    rw [highVolCond, volatilityPct, avgRange_flatRequest]
    norm_num
  have h6 : lowVolumeCond flatRequest = false := by
    rw [lowVolumeCond, volumes_flatRequest.1, volumes_flatRequest.2]
    norm_num
  rw [h1, h2, h3, h4, h5, h6]
  rfl

/-- Witness: `c1_factors_empty_iff` applied to the benign flat request. -/
theorem c1_factors_empty_iff_witness :
    flatRequest.candles ≠ [] ∧
      ((assess defaultSettings 0 flatRequest SignalDirection.long (9/10) true []).factors = [] ↔
        staleCond defaultSettings 0 flatRequest = false ∧ anomalyCond flatRequest = false ∧
        lowConfCond defaultSettings (9/10) = false ∧ true = true ∧
        detectDrift defaultSettings [] = false ∧ highVolCond flatRequest = false ∧
        lowVolumeCond flatRequest = false ∧ neutralCond SignalDirection.long = false) :=
  ⟨by decide,
    c1_factors_empty_iff defaultSettings 0 flatRequest SignalDirection.long (9/10) true []
      (by decide)⟩

/-- **C5** (corrected).  The High Volatility factor (whose category is
`market` and severity weight 5.0) fires exactly when the average
`high - low` range of the last 14 candles divided by their average close
exceeds 5 % — the source's "ATR proxy", not the true range the spec and
the level calculator define. -/
theorem c5_high_volatility_iff (s : Settings) (nowMs : Int) (req : SignalRequest)
    (direction : SignalDirection) (confidence : ℚ) (shadow_agreed : Bool)
    (hist : List ℚ) (hlen : 14 ≤ req.candles.length) :
    (highVolFactor ∈ (assess s nowMs req direction confidence shadow_agreed hist).factors ↔
        1/20 < avgRange req / avgPrice req) ∧
      highVolFactor.name = "High Volatility" ∧ highVolFactor.category = "market" ∧
      highVolFactor.score = 5 := by
  refine ⟨?_, rfl, rfl, rfl⟩
  have hfield : (assess s nowMs req direction confidence shadow_agreed hist).factors
      = assessFactors s nowMs req direction confidence shadow_agreed hist := rfl
  rw [hfield, assessFactors]
  simp only [List.mem_append, mem_optFactor]
  simp only [staleFactor, anomalyFactor, lowConfFactor, disagreeFactor, driftFactor,
    highVolFactor, lowVolumeFactor, neutralFactor, RiskFactor.mk.injEq]
  simp [highVolCond, volatilityPct, decide_eq_true_iff]
  constructor
  · intro h
    linarith
  · intro h
    linarith

/-- Witness: `c5_high_volatility_iff` applied to the benign flat request. -/
theorem c5_high_volatility_iff_witness :
    14 ≤ flatRequest.candles.length ∧
      ((highVolFactor ∈ (assess defaultSettings 0 flatRequest
          SignalDirection.long (9/10) true []).factors ↔
          1/20 < avgRange flatRequest / avgPrice flatRequest) ∧
        highVolFactor.name = "High Volatility" ∧ highVolFactor.category = "market" ∧
        highVolFactor.score = 5) :=
  ⟨by decide,
    c5_high_volatility_iff defaultSettings 0 flatRequest SignalDirection.long (9/10) true []
      (by decide)⟩

/-- Evaluation of the postprocessing step on the tied vector `[0.5, 0, 0.5]`. -/
theorem classifyProbs_tie :
    classifyProbs [(1 : ℚ)/2, 0, 1/2] = (SignalDirection.long, 1/2) := by
  have hmax : listMax [(0 : ℚ), 1/2] = 1/2 := by
    rw [listMax_cons_cons, listMax_singleton,
      max_eq_right (by norm_num : (0 : ℚ) ≤ 1/2)]
  have hidx : argmaxIdx [(1 : ℚ)/2, 0, 1/2] = 0 := by
    rw [argmaxIdx_cons_cons, hmax, if_pos (le_refl _)]
  rw [classifyProbs, hidx]
  rfl

/-- **C3** (corrected).  The argmax over the probability vector is
tie-broken to the lowest index, but under the code's index ordering
`{0: LONG, 1: SHORT, 2: NEUTRAL}`; `[0.5, 0.0, 0.5]` resolves to index 0
and the BUY/LONG direction. -/
theorem c3_argmax_lowest_index :
    (∀ ps : List ℚ, ps ≠ [] →
        argmaxIdx ps < ps.length ∧
        (∀ j, j < ps.length → ps.getD j 0 ≤ ps.getD (argmaxIdx ps) 0) ∧
        (∀ j, j < argmaxIdx ps → ps.getD j 0 < ps.getD (argmaxIdx ps) 0)) ∧
      directionMap 0 = SignalDirection.long ∧
      directionMap 1 = SignalDirection.short ∧
      directionMap 2 = SignalDirection.neutral ∧
      classifyProbs [1/2, 0, 1/2] = (SignalDirection.long, 1/2) := by
  refine ⟨fun ps hne => ⟨argmaxIdx_lt_length ps hne,
    fun j hj => getD_le_of_lt_length hj,
    fun j hj => getD_lt_of_lt_argmaxIdx ps j hj⟩, rfl, rfl, rfl, classifyProbs_tie⟩

/-- **C3** counterexample to the claim as stated: the tied vector
`[0.5, 0.0, 0.5]` resolves to index 0, but index 0 is BUY/LONG in the
code's `direction_map`, not SELL/SHORT as the spec's index ordering says. -/
theorem c3_tie_direction_counterexample :
    classifyProbs [1/2, 0, 1/2] = (SignalDirection.long, 1/2) ∧
      SignalDirection.long ≠ SignalDirection.short :=
  ⟨classifyProbs_tie, by decide⟩

/-- Witness: the lowest-index-maximum properties of `c3_argmax_lowest_index`
at the tied vector `[1/2, 0, 1/2]`. -/
theorem c3_argmax_lowest_index_witness :
    argmaxIdx [(1 : ℚ)/2, 0, 1/2] < 3 ∧
      ([(1 : ℚ)/2, 0, 1/2] : List ℚ).getD 2 0
        ≤ ([(1 : ℚ)/2, 0, 1/2] : List ℚ).getD (argmaxIdx [(1 : ℚ)/2, 0, 1/2]) 0 :=
  ⟨(c3_argmax_lowest_index.1 [(1 : ℚ)/2, 0, 1/2] (by decide)).1,
    (c3_argmax_lowest_index.1 [(1 : ℚ)/2, 0, 1/2] (by decide)).2.1 2 (by decide)⟩

/-- ATR of the 14-candle window of `rangeCandle`s is exactly 2. -/
theorem atr_rangeCandles14 : atr rangeCandles14 = 2 := by
  have hh : rangeCandles14.map OHLCVData.high = List.replicate 14 (101 : ℚ) := by
    simp [rangeCandles14, rangeCandle]
  have hl : rangeCandles14.map OHLCVData.low = List.replicate 14 (99 : ℚ) := by
    simp [rangeCandles14, rangeCandle]
  have hc : rangeCandles14.map OHLCVData.close = List.replicate 14 (100 : ℚ) := by
    simp [rangeCandles14, rangeCandle]
  simp only [atr, hh, hl, hc]
  rw [lastN_of_le (by simp), lastN_of_le (by simp), lastN_of_le (by simp)]
  simp [zip_replicate_min, trueRange, List.sum_replicate]
  norm_num

/-- **C2** (corrected).  For a LONG signal with last close 100 and ATR 2,
the level calculation yields entry 100, stop-loss 97 and take-profits
[102, 104, 106]; the risk/reward ratio is
`|take_profits[0] - entry| / |entry - stop_loss| = 2/3`, not 1.0. -/
theorem c2_long_levels (candles : List OHLCVData) (lastC : OHLCVData)
    (hlast : candles.getLast? = some lastC) (hclose : lastC.close = 100)
    (hatr : atr candles = 2) :
    calcLevels SignalDirection.long candles
      = some (100, 97, [102, 104, 106], 2/3) := by
  simp only [calcLevels, hlast, hclose, hatr]
  norm_num

/-- **C2** counterexample to the claim as stated: on a concrete window with
last close 100 and ATR 2, the computed risk/reward ratio is 2/3, which is
not the 1.0 the claim asserts. -/
theorem c2_rr_counterexample :
    rangeCandles14.getLast?.map OHLCVData.close = some 100 ∧
      atr rangeCandles14 = 2 ∧
      (calcLevels SignalDirection.long rangeCandles14).map (fun r => r.2.2.2)
        = some (2/3) ∧
      (2/3 : ℚ) ≠ 1 := by
  have hlast : rangeCandles14.getLast? = some rangeCandle := by
    simp [rangeCandles14, List.getLast?_replicate]
  refine ⟨by rw [hlast]; rfl, atr_rangeCandles14, ?_, by norm_num⟩
  simp only [calcLevels, hlast, atr_rangeCandles14, rangeCandle]
  norm_num

/-- Witness: `c2_long_levels` applied to the concrete 14-candle window. -/
theorem c2_long_levels_witness :
    rangeCandles14.getLast? = some rangeCandle ∧ rangeCandle.close = 100 ∧
      atr rangeCandles14 = 2 ∧
      calcLevels SignalDirection.long rangeCandles14
        = some (100, 97, [102, 104, 106], 2/3) :=
  ⟨by simp [rangeCandles14, List.getLast?_replicate], rfl, atr_rangeCandles14,
    c2_long_levels rangeCandles14 rangeCandle
      (by simp [rangeCandles14, List.getLast?_replicate]) rfl atr_rangeCandles14⟩

/-- **C9** (confirmed).  With neither the primary nor the shadow model
loaded, `predict` returns direction NEUTRAL with confidence 0.5 and
`shadow_agreed = true` on every nonempty candle window, and the inference
step never raises (the result is always `some`). -/
theorem c9_no_models (req : SignalRequest) (hne : req.candles ≠ []) :
    ∃ e sl tp rr, predict none none req
      = some (SignalDirection.neutral, 1/2, e, sl, tp, rr, true) := by
  obtain ⟨lc, hl⟩ := Option.isSome_iff_exists.mp (List.getLast?_isSome.mpr hne)
  exact ⟨_, _, _, _, by simp only [predict, predictDirection, predictShadow, calcLevels, hl]; rfl⟩

/-- Witness: `c9_no_models` on the flat 50-candle request. -/
theorem c9_no_models_witness :
    flatRequest.candles ≠ [] ∧
      ∃ e sl tp rr, predict none none flatRequest
        = some (SignalDirection.neutral, 1/2, e, sl, tp, rr, true) :=
  ⟨by decide, c9_no_models flatRequest (by decide)⟩

/-- Two candles whose price fields rise from 1 to 2 and whose volume is
constant 0: normalization maps the price columns to `[0, 1]` and the
constant volume column to `[1/2, 1/2]`. -/
def twoCandles : List OHLCVData :=
  [{ timestamp := 0, «open» := 1, high := 1, low := 1, close := 1, volume := 0 },
   { timestamp := 1, «open» := 2, high := 2, low := 2, close := 2, volume := 0 }]

theorem preprocess_twoCandles :
    preprocess twoCandles = [[0, 1], [0, 1], [0, 1], [0, 1], [1/2, 1/2]] := by
  simp only [preprocess, twoCandles, List.map_cons, List.map_nil]
  simp [preprocessCol, listMin_cons_cons, listMin_singleton,
    listMax_cons_cons, listMax_singleton]
  norm_num

/-- ATR of the flat 14-candle window is zero. -/
theorem atr_flatCandles14 : atr flatCandles14 = 0 := by
  have hh : flatCandles14.map OHLCVData.high = List.replicate 14 (100 : ℚ) := by
    simp [flatCandles14, flatCandle]
  have hl : flatCandles14.map OHLCVData.low = List.replicate 14 (100 : ℚ) := by
    simp [flatCandles14, flatCandle]
  have hc : flatCandles14.map OHLCVData.close = List.replicate 14 (100 : ℚ) := by
    simp [flatCandles14, flatCandle]
  simp only [atr, hh, hl, hc]
  simp [lastN_of_le, zip_replicate_min, trueRange, List.sum_replicate]

/-- **C7** (confirmed).  Arithmetic degeneracy never raises: every
normalized feature value lies in `[0, 1]`; a constant column (min = max)
is mapped entirely to `0.5` instead of dividing by zero; and when
`|entry - stop_loss|` is zero the risk/reward ratio is `1.0` instead of a
division by zero. -/
theorem c7_degeneracy :
    (∀ (candles : List OHLCVData), ∀ col ∈ preprocess candles, ∀ v ∈ col,
        0 ≤ v ∧ v ≤ 1) ∧
      (∀ col : List ℚ, listMin col = listMax col →
        preprocessCol col = col.map fun _ => 1/2) ∧
      (∀ (direction : SignalDirection) (candles : List OHLCVData)
          (r : ℚ × ℚ × List ℚ × ℚ), calcLevels direction candles = some r →
        |r.1 - r.2.1| = 0 → r.2.2.2 = 1) := by
  refine ⟨?_, ?_, ?_⟩
  · intro candles col hcol v hv
    rw [preprocess, List.mem_map] at hcol
    obtain ⟨c0, hc0, rfl⟩ := hcol
    rw [preprocessCol] at hv
    by_cases hlt : listMin c0 < listMax c0
    · rw [if_pos hlt, List.mem_map] at hv
      obtain ⟨w, hw, rfl⟩ := hv
      have h1 : listMin c0 ≤ w := listMin_le_of_mem hw
      have h2 : w ≤ listMax c0 := le_listMax_of_mem hw
      have hpos : 0 < listMax c0 - listMin c0 := sub_pos.mpr hlt
      constructor
      · exact div_nonneg (by linarith) (le_of_lt hpos)
      · rw [div_le_one hpos]
        linarith
    · rw [if_neg hlt, List.mem_map] at hv
      obtain ⟨w, hw, rfl⟩ := hv
      norm_num
  · intro col h
    rw [preprocessCol, if_neg (by rw [h]; exact lt_irrefl _)]
  · intro direction candles r hsome hzero
    cases direction <;>
    · rcases hl : candles.getLast? with _ | lc
      · simp [calcLevels, hl] at hsome
      · simp only [calcLevels, hl] at hsome
        obtain rfl := Option.some.inj hsome
        dsimp only at hzero ⊢
        rw [hzero, if_neg (lt_irrefl 0)]

/-- Witness: the three degeneracy guards of `c7_degeneracy` at concrete
inputs: a normalized value of the two-candle window, a constant column,
and the zero-risk flat LONG level calculation. -/
theorem c7_degeneracy_witness :
    ((0 : ℚ) ≤ 1 ∧ (1 : ℚ) ≤ 1) ∧
      preprocessCol [(3 : ℚ), 3] = [1/2, 1/2] ∧
      (((100 : ℚ), (100 : ℚ), ([100, 100, 100] : List ℚ), (1 : ℚ))).2.2.2 = 1 :=
  ⟨c7_degeneracy.1 twoCandles [0, 1] (by rw [preprocess_twoCandles]; simp) 1 (by simp),
    c7_degeneracy.2.1 [(3 : ℚ), 3]
      (by rw [listMin_cons_cons, listMin_singleton, listMax_cons_cons, listMax_singleton,
        min_self, max_self]),
    c7_degeneracy.2.2 SignalDirection.long flatCandles14 (100, 100, [100, 100, 100], 1)
      (by
        have hlast : flatCandles14.getLast? = some flatCandle := by
          simp [flatCandles14, List.getLast?_replicate]
        simp only [calcLevels, hlast, atr_flatCandles14, flatCandle]
        norm_num)
      (by norm_num)⟩

/-- A gap candle: all four prices equal `p` (zero high-low range), volume 5. -/
def stepCandle (p : ℚ) : OHLCVData :=
  { timestamp := 0, «open» := p, high := p, low := p, close := p, volume := 5 }

/-- The closes of the stepped window's last 14 candles: +50 per candle. -/
def stepTail : List ℚ :=
  [150, 200, 250, 300, 350, 400, 450, 500, 550, 600, 650, 700, 750, 800]

/-- A 50-candle window: 36 flat candles, then 14 gap candles stepping up by
50 each.  Every candle has `high = low`, so the assessor's high-low range
proxy is 0, while the true-range ATR of the window is 50. -/
def steppedCandles : List OHLCVData :=
  List.replicate 36 flatCandle ++ (stepTail.map stepCandle)

def steppedRequest : SignalRequest :=
  { candles := steppedCandles, request_timestamp := 0 }

theorem lastN_rep36 (xs : List ℚ) (hx : xs.length = 14) :
    lastN 14 (List.replicate 36 (100 : ℚ) ++ xs) = xs := by
  unfold lastN
  rw [List.length_append, List.length_replicate, hx]
  exact List.drop_left' (by simp)

theorem atr_steppedCandles : atr steppedCandles = 50 := by
  have hh : steppedCandles.map OHLCVData.high = List.replicate 36 (100 : ℚ) ++ stepTail := by
    simp [steppedCandles, stepCandle, flatCandle, stepTail]
  have hl : steppedCandles.map OHLCVData.low = List.replicate 36 (100 : ℚ) ++ stepTail := by
    simp [steppedCandles, stepCandle, flatCandle, stepTail]
  have hc : steppedCandles.map OHLCVData.close = List.replicate 36 (100 : ℚ) ++ stepTail := by
    simp [steppedCandles, stepCandle, flatCandle, stepTail]
  simp only [atr, hh, hl, hc, lastN_rep36 stepTail (by simp [stepTail])]
  simp [stepTail, trueRange]
  norm_num

theorem avgPrice_stepped : avgPrice steppedRequest = 475 := by
  have hc : steppedRequest.candles.map OHLCVData.close
      = List.replicate 36 (100 : ℚ) ++ stepTail := by
    simp [steppedRequest, steppedCandles, stepCandle, flatCandle, stepTail]
  simp only [avgPrice, hc, lastN_rep36 stepTail (by simp [stepTail])]
  simp [stepTail]
  norm_num

theorem zip_self_sub_sum : ∀ (xs : List ℚ),
    ((xs.zip xs).map fun hl => hl.1 - hl.2).sum = 0
  | [] => rfl
  | x :: xs => by
    rw [List.zip_cons_cons, List.map_cons, List.sum_cons, sub_self, zero_add,
      zip_self_sub_sum xs]

theorem avgRange_zero_of_high_eq_low (req : SignalRequest)
    (h : req.candles.map OHLCVData.high = req.candles.map OHLCVData.low) :
    avgRange req = 0 := by
  simp only [avgRange, h]
  rw [zip_self_sub_sum, zero_div]

/-- **C5** counterexample to the claim as stated: on the stepped window the
14-candle average *true range* (the spec's and the level calculator's ATR)
over the average close is 50/475 > 5 %, yet `assess` does not fire the
High Volatility factor, because the check uses the average `high - low`
range, which is 0 here. -/
theorem c5_true_range_counterexample :
    1/20 < atr steppedCandles / avgPrice steppedRequest ∧
      ∀ f ∈ (assess defaultSettings 0 steppedRequest
          SignalDirection.long (9/10) true []).factors,
        f.name ≠ "High Volatility" := by
  constructor
  · rw [atr_steppedCandles, avgPrice_stepped]
    norm_num
  · have hvol : highVolCond steppedRequest = false := by
      rw [highVolCond, volatilityPct, avgRange_zero_of_high_eq_low steppedRequest rfl]
      norm_num
    intro f hf
    have hfield : (assess defaultSettings 0 steppedRequest
          SignalDirection.long (9/10) true []).factors
        = assessFactors defaultSettings 0 steppedRequest
            SignalDirection.long (9/10) true [] := rfl
    rw [hfield, assessFactors, hvol] at hf
    simp only [List.mem_append, mem_optFactor] at hf
    rcases hf with ((((((⟨_, rfl⟩ | ⟨_, rfl⟩) | ⟨_, rfl⟩) | ⟨_, rfl⟩) | ⟨_, rfl⟩) |
      ⟨h6, _⟩) | ⟨_, rfl⟩) | ⟨_, rfl⟩
    · decide
    · decide
    · decide
    · decide
    · decide
    · exact absurd h6 (by simp)
    · decide
    · decide
